import Mathlib

/-!
Verification of the MTL2 touchscreen driver core
(`mtl2_touchscreen_driver_v2.c`): the bit-level coordinate decoder
`create_coord`, the interrupt sample pipeline `mtl2_touchscreen_irq`,
the attach path `mtl2_touchscreen_probe`, and the detach path
`mtl2_touchscreen_exit`, shallowly embedded over `Nat`/`Int` with
explicit traces for bus reads, emitted events, setup steps and
teardown steps.
-/

namespace MTL2

/-- C macro `BIT_SET(a, b) ((a) |= (1UL << (b)))`, as the updated value. -/
def BIT_SET (a b : Nat) : Nat := a ||| (1 <<< b)

/-- C macro `BIT_CHECK(a, b) (!!((a) & (1UL << (b))))`. -/
def BIT_CHECK (a b : Nat) : Bool := a &&& (1 <<< b) != 0

/-- `#define DEVICE_ADDRESS 0x38`. -/
def DEVICE_ADDRESS : Nat := 0x38

/-- `#define INT_GPIO_PIN 4`. -/
def INT_GPIO_PIN : Nat := 4

/-- `#define MTL2_MAX_X 480`. -/
def MTL2_MAX_X : Nat := 480

/-- `#define MTL2_MAX_Y 800`. -/
def MTL2_MAX_Y : Nat := 800

/-- Register map: `#define DEVICE_MODE 0x00`. -/
def DEVICE_MODE : Nat := 0x00

/-- `#define GEST_ID 0x01`. -/
def GEST_ID : Nat := 0x01

/-- `#define TD_STATUS 0x02`. -/
def TD_STATUS : Nat := 0x02

/-- `#define TOUCH1_XH 0x03`. -/
def TOUCH1_XH : Nat := 0x03

/-- `#define TOUCH1_XL 0x04`. -/
def TOUCH1_XL : Nat := 0x04

/-- `#define TOUCH1_YH 0x05`. -/
def TOUCH1_YH : Nat := 0x05

/-- `#define TOUCH1_YL 0x06`. -/
def TOUCH1_YL : Nat := 0x06

/-- `#define TOUCH2_XH 0x09`. -/
def TOUCH2_XH : Nat := 0x09

/-- `#define TOUCH2_XL 0x0A`. -/
def TOUCH2_XL : Nat := 0x0A

/-- `#define TOUCH2_YH 0x0B`. -/
def TOUCH2_YH : Nat := 0x0B

/-- `#define TOUCH2_YL 0x0C`. -/
def TOUCH2_YL : Nat := 0x0C

/-- `#define TOUCH3_XH 0x0F`. -/
def TOUCH3_XH : Nat := 0x0F

/-- `#define TOUCH3_XL 0x10`. -/
def TOUCH3_XL : Nat := 0x10

/-- `#define TOUCH3_YH 0x11`. -/
def TOUCH3_YH : Nat := 0x11

/-- `#define TOUCH3_YL 0x12`. -/
def TOUCH3_YL : Nat := 0x12

/-- `#define TOUCH4_XH 0x15`. -/
def TOUCH4_XH : Nat := 0x15

/-- `#define TOUCH4_XL 0x16`. -/
def TOUCH4_XL : Nat := 0x16

/-- `#define TOUCH4_YH 0x17`. -/
def TOUCH4_YH : Nat := 0x17

/-- `#define TOUCH4_YL 0x18`. -/
def TOUCH4_YL : Nat := 0x18

/-- `#define TOUCH5_XH 0x1B`. -/
def TOUCH5_XH : Nat := 0x1B

/-- `#define TOUCH5_XL 0x1C`. -/
def TOUCH5_XL : Nat := 0x1C

/-- `#define TOUCH5_YH 0x1D`. -/
def TOUCH5_YH : Nat := 0x1D

/-- `#define TOUCH5_YL 0x1E`. -/
def TOUCH5_YL : Nat := 0x1E

/-- The coordinate decoder `create_coord(u8 msb, u8 lsb)`, lines 86-97:
`coord = 0`, a first loop over `i = 0..7` copying bit `i` of `lsb` into
bit `i` of `coord` via `BIT_CHECK`/`BIT_SET`, then a second loop over
`i = 8..11` copying bit `i - 8` of `msb` into bit `i` of `coord`. -/
def create_coord (msb lsb : Nat) : Nat :=
  let coord : Nat := 0
  let coord := (List.range' 0 8).foldl
    (fun c i => if BIT_CHECK lsb i then BIT_SET c i else c) coord
  let coord := (List.range' 8 4).foldl
    (fun c i => if BIT_CHECK msb (i - 8) then BIT_SET c i else c) coord
  coord

theorem BIT_CHECK_eq_testBit (a b : Nat) : BIT_CHECK a b = a.testBit b := by
  unfold BIT_CHECK
  rw [Nat.shiftLeft_eq, Nat.one_mul, Nat.and_two_pow]
  cases h : a.testBit b <;> simp [Nat.two_pow_pos, Nat.pos_iff_ne_zero]

theorem testBit_BIT_SET (a b k : Nat) :
    (BIT_SET a b).testBit k = (a.testBit k || decide (b = k)) := by
  unfold BIT_SET
  rw [Nat.testBit_or, Nat.shiftLeft_eq, Nat.one_mul, Nat.testBit_two_pow]

/-- The effect on an arbitrary bit of a fold that conditionally sets
the bits listed in `l`. -/
theorem testBit_foldl_bitset (l : List Nat) (f : Nat → Bool) (a k : Nat) :
    (l.foldl (fun c i => if f i then BIT_SET c i else c) a).testBit k
      = (a.testBit k || (decide (k ∈ l) && f k)) := by
  induction l generalizing a with
  | nil => simp
  | cons x xs ih =>
    simp only [List.foldl_cons, ih, List.mem_cons]
    by_cases hx : x = k
    · subst hx
      cases hf : f x <;> simp [hf, testBit_BIT_SET]
    · have hkx : ¬ (k = x) := fun h => hx h.symm
      cases hf : f x <;> simp [hf, testBit_BIT_SET, hx, hkx, Bool.or_assoc]

/-- Bits at or above position 8 of a byte-sized value are clear. -/
theorem testBit_byte_high {l k : Nat} (hl : l < 256) (hk : 8 ≤ k) :
    l.testBit k = false := by
  refine Nat.testBit_lt_two_pow (Nat.lt_of_lt_of_le hl ?_)
  calc (256 : Nat) = 2 ^ 8 := by norm_num
    _ ≤ 2 ^ k := Nat.pow_le_pow_right (by norm_num) hk

/-- Closed form of the two bit-copying loops of `create_coord`:
for a byte-sized `lsb`, the result is `lsb | ((msb & 0x0F) << 8)`. -/
theorem create_coord_eq (msb lsb : Nat) (hl : lsb < 256) :
    create_coord msb lsb = lsb ||| ((msb &&& 0x0F) <<< 8) := by
  apply Nat.eq_of_testBit_eq
  intro k
  unfold create_coord
  rw [testBit_foldl_bitset, testBit_foldl_bitset]
  have hr1 : List.range' 0 8 = [0, 1, 2, 3, 4, 5, 6, 7] := by decide
  have hr2 : List.range' 8 4 = [8, 9, 10, 11] := by decide
  have h15 : (0x0F : Nat) = 2 ^ 4 - 1 := by norm_num
  rw [hr1, hr2, h15, Nat.testBit_or, Nat.testBit_shiftLeft, Nat.testBit_and,
    Nat.testBit_two_pow_sub_one, BIT_CHECK_eq_testBit, BIT_CHECK_eq_testBit,
    Nat.zero_testBit]
  rcases Nat.lt_or_ge k 8 with h8 | h8
  · have hm1 : k = 0 ∨ k = 1 ∨ k = 2 ∨ k = 3 ∨ k = 4 ∨ k = 5 ∨ k = 6 ∨ k = 7 := by
      omega
    have hm2 : ¬ (k = 8 ∨ k = 9 ∨ k = 10 ∨ k = 11) := by omega
    have hn8 : ¬ 8 ≤ k := by omega
    simp [hm1, hm2, hn8]
  · have hlf : lsb.testBit k = false := testBit_byte_high hl h8
    have hn : ¬ (k = 0 ∨ k = 1 ∨ k = 2 ∨ k = 3 ∨ k = 4 ∨ k = 5 ∨ k = 6 ∨ k = 7) := by
      omega
    rcases Nat.lt_or_ge k 12 with h12 | h12
    · have hm : k = 8 ∨ k = 9 ∨ k = 10 ∨ k = 11 := by omega
      have hlt : k - 8 < 4 := by omega
      simp [hn, hm, h8, hlt, hlf]
    · have hm : ¬ (k = 8 ∨ k = 9 ∨ k = 10 ∨ k = 11) := by omega
      have hlt : ¬ (k - 8 < 4) := by omega
      simp [hn, hm, hlt, hlf]

/-- C1: for every pair of input bytes, `create_coord` returns exactly
`low | ((high & 0x0F) << 8)`; in particular
`create_coord 0x01 0xA3 = 0x1A3 = 419` and
`create_coord 0xFF 0x00 = 0x0F00 = 3840`. -/
theorem C1_decoder_closed_form :
    (∀ high low : Nat, high < 256 → low < 256 →
        create_coord high low = low ||| ((high &&& 0x0F) <<< 8))
    ∧ create_coord 0x01 0xA3 = 419 ∧ create_coord 0xFF 0x00 = 3840 :=
  ⟨fun high low _ hl => create_coord_eq high low hl, by decide, by decide⟩

/-- Witness for C1 at the concrete bytes `high = 0x01`, `low = 0xA3`. -/
theorem C1_decoder_closed_form_witness :
    create_coord 0x01 0xA3 = 0xA3 ||| ((0x01 &&& 0x0F) <<< 8) :=
  C1_decoder_closed_form.1 0x01 0xA3 (by decide) (by decide)

/-- Masking with the low nibble is the identity below 16. -/
theorem and_fifteen_of_lt {h : Nat} (hh : h < 16) : h &&& 0x0F = h := by
  have hlt : h < 2 ^ 4 := by omega
  calc h &&& 0x0F = h &&& (2 ^ 4 - 1) := by norm_num
    _ = h := Nat.and_pow_two_sub_one_of_lt_two_pow hlt

/-- A 12-bit value of the form `l ||| (h <<< 8)` with byte-sized `l`
determines both components. -/
theorem or_shift8_inj {l1 h1 l2 h2 : Nat} (hl1 : l1 < 256) (hl2 : l2 < 256)
    (e : l1 ||| (h1 <<< 8) = l2 ||| (h2 <<< 8)) : l1 = l2 ∧ h1 = h2 := by
  constructor
  · apply Nat.eq_of_testBit_eq
    intro k
    have ek : (l1 ||| (h1 <<< 8)).testBit k = (l2 ||| (h2 <<< 8)).testBit k := by
      rw [e]
    simp only [Nat.testBit_or, Nat.testBit_shiftLeft] at ek
    by_cases hk : 8 ≤ k
    · rw [testBit_byte_high hl1 hk, testBit_byte_high hl2 hk]
    · have hd : decide (8 ≤ k) = false := decide_eq_false hk
      rw [hd] at ek
      simpa using ek
  · apply Nat.eq_of_testBit_eq
    intro k
    have ek : (l1 ||| (h1 <<< 8)).testBit (k + 8)
        = (l2 ||| (h2 <<< 8)).testBit (k + 8) := by rw [e]
    simp only [Nat.testBit_or, Nat.testBit_shiftLeft] at ek
    have hd : decide (8 ≤ k + 8) = true := decide_eq_true (by omega)
    rw [testBit_byte_high hl1 (by omega), testBit_byte_high hl2 (by omega),
      hd] at ek
    simpa using ek

/-- C9: the decoder ignores the upper nibble of the high byte
(`create_coord high low = create_coord (high &&& 0x0F) low`), is
injective when the high byte is restricted to 0x00-0x0F and the low
byte to a byte, and satisfies `create_coord 0 0 = 0`,
`create_coord 0x0F 0xFF = 4095`, `create_coord 0x10 0x00 = 0`. -/
theorem C9_decoder_injective :
    (∀ high low : Nat, high < 256 → low < 256 →
        create_coord high low = create_coord (high &&& 0x0F) low)
    ∧ (∀ h1 l1 h2 l2 : Nat, h1 < 16 → h2 < 16 → l1 < 256 → l2 < 256 →
        create_coord h1 l1 = create_coord h2 l2 → h1 = h2 ∧ l1 = l2)
    ∧ create_coord 0 0 = 0 ∧ create_coord 0x0F 0xFF = 4095
    ∧ create_coord 0x10 0x00 = 0 := by
  refine ⟨?_, ?_, by decide, by decide, by decide⟩
  · intro high low _ hl
    rw [create_coord_eq high low hl, create_coord_eq (high &&& 0x0F) low hl,
      Nat.and_assoc]
    congr 2
  · intro h1 l1 h2 l2 hh1 hh2 hl1 hl2 e
    rw [create_coord_eq h1 l1 hl1, create_coord_eq h2 l2 hl2,
      and_fifteen_of_lt hh1, and_fifteen_of_lt hh2] at e
    have h := or_shift8_inj hl1 hl2 e
    exact ⟨h.2, h.1⟩

/-- Witness for C9: injectivity applied at the concrete pair
`(high, low) = (0x01, 0xA3)` against itself. -/
theorem C9_decoder_injective_witness : (0x01 : Nat) = 0x01 ∧ (0xA3 : Nat) = 0xA3 :=
  C9_decoder_injective.2.1 0x01 0xA3 0x01 0xA3 (by decide) (by decide)
    (by decide) (by decide) rfl

/-- The two input axes used by the handler: `ABS_X` and `ABS_Y`. -/
inductive Axis
  | absX
  | absY
deriving DecidableEq

/-- The only key the driver reports: `BTN_TOUCH`. -/
inductive Key
  | btnTouch
deriving DecidableEq

/-- One event handed to the input core by the handler:
`input_report_abs`, `input_report_key` or `input_sync`. -/
inductive Event
  | reportAbs (axis : Axis) (value : Nat)
  | reportKey (key : Key) (pressed : Bool)
  | sync
deriving DecidableEq

/-- Return value of an interrupt handler (`IRQ_HANDLED` / `IRQ_NONE`). -/
inductive IrqRet
  | handled
  | irqNone
deriving DecidableEq

/-- C conversion of the `s32` returned by `i2c_smbus_read_byte_data`
into a `u8` variable: truncation modulo 256. -/
def u8_of_s32 (r : Int) : Nat := (r % 256).toNat

/-- One call `i2c_smbus_read_byte_data(data.client, reg)`, with the bus
modelled as a map from register offset to the raw `s32` result
(a byte on success, a negative errno on transfer failure), and the
offset appended to the read trace.  The result is narrowed to `u8`
exactly as the assignments on lines 118-124 do. -/
def i2c_smbus_read_byte_data (bus : Nat → Int) (reg : Nat) (tr : List Nat) :
    Nat × List Nat :=
  (u8_of_s32 (bus reg), tr ++ [reg])

/-- Outcome of one invocation of the interrupt handler: the sequence of
register offsets read, the sequence of events emitted, and the return
value. -/
structure IrqOut where
  reads : List Nat
  events : List Event
  ret : IrqRet
deriving DecidableEq

/-- The interrupt handler `mtl2_touchscreen_irq`, lines 113-135: read
`TOUCH1_XH`, `TOUCH1_XL`, decode `x`; read `TOUCH1_YH`, `TOUCH1_YL`,
decode `y`; then report `ABS_X = x`, `ABS_Y = y`,
`BTN_TOUCH = 1`, sync, and return `IRQ_HANDLED`. -/
def mtl2_touchscreen_irq (bus : Nat → Int) : IrqOut :=
  let p1 := i2c_smbus_read_byte_data bus TOUCH1_XH []
  let x_h := p1.1
  let p2 := i2c_smbus_read_byte_data bus TOUCH1_XL p1.2
  let x_l := p2.1
  let x := create_coord x_h x_l
  let p3 := i2c_smbus_read_byte_data bus TOUCH1_YH p2.2
  let y_h := p3.1
  let p4 := i2c_smbus_read_byte_data bus TOUCH1_YL p3.2
  let y_l := p4.1
  let y := create_coord y_h y_l
  { reads := p4.2
    events := [Event.reportAbs Axis.absX x, Event.reportAbs Axis.absY y,
               Event.reportKey Key.btnTouch true, Event.sync]
    ret := IrqRet.handled }

/-- C2: every interrupt episode emits exactly one absolute-X report,
one absolute-Y report, one `BTN_TOUCH` report with `pressed = true`
and one synchronize, in that order, and never a `pressed = false`
event. -/
theorem C2_irq_framing (bus : Nat → Int) :
    (∃ x y, (mtl2_touchscreen_irq bus).events
        = [Event.reportAbs Axis.absX x, Event.reportAbs Axis.absY y,
           Event.reportKey Key.btnTouch true, Event.sync])
    ∧ ∀ k : Key, Event.reportKey k false ∉ (mtl2_touchscreen_irq bus).events := by
  constructor
  · exact ⟨_, _, rfl⟩
  · intro k
    simp [mtl2_touchscreen_irq, i2c_smbus_read_byte_data]

/-- A bus on which every read fails with `-EREMOTEIO` (-121). -/
def busErr : Nat → Int := fun _ => -121

/-- C4: a negative error sentinel from a register read is narrowed
modulo 256 into a raw byte, fed to `create_coord`, and the full event
frame is still emitted with `IRQ_HANDLED`; on a bus whose reads all
return -121 the handler still reports `ABS_X = 1927` (garbage derived
from the truncated sentinel 135).  No error is propagated and no
emission is suppressed. -/
theorem C4_bus_error_not_distinguished (bus : Nat → Int)
    (hneg : ∀ r : Nat, bus r < 0) :
    (mtl2_touchscreen_irq bus).ret = IrqRet.handled
    ∧ (mtl2_touchscreen_irq bus).events
        = [Event.reportAbs Axis.absX
             (create_coord (u8_of_s32 (bus TOUCH1_XH)) (u8_of_s32 (bus TOUCH1_XL))),
           Event.reportAbs Axis.absY
             (create_coord (u8_of_s32 (bus TOUCH1_YH)) (u8_of_s32 (bus TOUCH1_YL))),
           Event.reportKey Key.btnTouch true, Event.sync]
    ∧ (∀ r : Nat, u8_of_s32 (bus r) = ((bus r) % 256).toNat)
    ∧ (mtl2_touchscreen_irq busErr).events.head?
        = some (Event.reportAbs Axis.absX 1927) :=
  ⟨rfl, rfl, fun _ => rfl, by decide⟩

/-- Witness for C4 on the concrete all-failing bus `busErr`. -/
theorem C4_bus_error_not_distinguished_witness :
    (mtl2_touchscreen_irq busErr).ret = IrqRet.handled :=
  (C4_bus_error_not_distinguished busErr (fun r => show (-121 : Int) < 0 by decide)).1

/-- The registers of touch slots 2-5: present in the register map but
never consulted by the handler. -/
def slot2to5_regs : List Nat :=
  [TOUCH2_XH, TOUCH2_XL, TOUCH2_YH, TOUCH2_YL,
   TOUCH3_XH, TOUCH3_XL, TOUCH3_YH, TOUCH3_YL,
   TOUCH4_XH, TOUCH4_XL, TOUCH4_YH, TOUCH4_YL,
   TOUCH5_XH, TOUCH5_XL, TOUCH5_YH, TOUCH5_YL]

/-- C8: every interrupt episode reads exactly the four slot-1
registers 0x03, 0x04, 0x05, 0x06 in that order; the slot 2-5 registers
(0x09-0x0C, 0x0F-0x12, 0x15-0x18, 0x1B-0x1E) are never read. -/
theorem C8_reads_slot1_only (bus : Nat → Int) :
    (mtl2_touchscreen_irq bus).reads = [TOUCH1_XH, TOUCH1_XL, TOUCH1_YH, TOUCH1_YL]
    ∧ TOUCH1_XH = 0x03 ∧ TOUCH1_XL = 0x04 ∧ TOUCH1_YH = 0x05 ∧ TOUCH1_YL = 0x06
    ∧ ∀ r ∈ slot2to5_regs, r ∉ (mtl2_touchscreen_irq bus).reads := by
  refine ⟨rfl, rfl, rfl, rfl, rfl, ?_⟩
  intro r hr
  simp only [mtl2_touchscreen_irq, i2c_smbus_read_byte_data] at *
  fin_cases hr <;> decide

/-- Witness for C8: register `TOUCH2_XH` is not among the offsets read
on a concrete bus. -/
theorem C8_reads_slot1_only_witness :
    TOUCH2_XH ∉ (mtl2_touchscreen_irq (fun _ => 0)).reads :=
  (C8_reads_slot1_only (fun _ => 0)).2.2.2.2.2 TOUCH2_XH (by decide)

/-- errno `ENODEV` (no such device). -/
def ENODEV : Int := 19

/-- errno `ENXIO` (no such device or address). -/
def ENXIO : Int := 6

/-- errno `ENOMEM` (out of memory). -/
def ENOMEM : Int := 12

/-- Results of the platform calls made by `mtl2_touchscreen_probe`:
whether `gpio_request` returned 0, the value `gpio_to_irq` returned
(negative on mapping failure), whether `devm_request_irq` returned 0,
whether `i2c_check_functionality` returned nonzero, whether
`devm_input_allocate_device` returned a non-NULL device, and the value
`input_register_device` returned (nonzero on failure). -/
structure ProbeEnv where
  gpio_request_ok : Bool
  gpio_to_irq_ret : Int
  devm_request_irq_ok : Bool
  i2c_check_func_ok : Bool
  input_alloc_ok : Bool
  input_register_ret : Int
deriving DecidableEq

/-- The setup steps `mtl2_touchscreen_probe` can attempt, in source
order. -/
inductive ProbeStep
  | gpio_request
  | gpio_to_irq
  | devm_request_irq
  | i2c_check_functionality
  | input_allocate
  | input_setup
  | input_register
deriving DecidableEq

/-- Outcome of `mtl2_touchscreen_probe`: `ret` is `some code` when a
`return code` statement executed (the success path of the C function
falls off the end with no return statement, modelled as `none`);
`steps` is the sequence of attempted setup steps; the four Booleans
record which resources are held when the function exits; the axis
fields record the maxima passed to `input_set_abs_params`; `logs`
collects the `dev_err` messages. -/
structure ProbeOut where
  ret : Option Int
  steps : List ProbeStep
  gpio_reserved : Bool
  irq_installed : Bool
  input_allocated : Bool
  input_registered : Bool
  abs_x_max : Option Nat
  abs_y_max : Option Nat
  logs : List String
deriving DecidableEq

/-- The attach path `mtl2_touchscreen_probe`, lines 138-196, as a
sequence of early-return branches:
`gpio_request` failure returns -1; a negative `gpio_to_irq` returns
-1; `devm_request_irq` failure returns `-ENODEV`;
`i2c_check_functionality` failure returns `-ENXIO`;
`devm_input_allocate_device` failure returns `-ENOMEM`; otherwise the
input device is configured (`BTN_TOUCH` capability, `ABS_X` bounded by
`MTL2_MAX_X`, `ABS_Y` bounded by `MTL2_MAX_Y`) and registered, a
nonzero `input_register_device` result being returned as-is.  No
branch releases a previously acquired resource. -/
def mtl2_touchscreen_probe (env : ProbeEnv) : ProbeOut :=
  if env.gpio_request_ok = false then
    { ret := some (-1)
      steps := [ProbeStep.gpio_request]
      gpio_reserved := false, irq_installed := false
      input_allocated := false, input_registered := false
      abs_x_max := none, abs_y_max := none
      logs := ["GPIO request failure."] }
  else if env.gpio_to_irq_ret < 0 then
    { ret := some (-1)
      steps := [ProbeStep.gpio_request, ProbeStep.gpio_to_irq]
      gpio_reserved := true, irq_installed := false
      input_allocated := false, input_registered := false
      abs_x_max := none, abs_y_max := none
      logs := ["GPIO mapping to IQR failure."] }
  else if env.devm_request_irq_ok = false then
    { ret := some (-ENODEV)
      steps := [ProbeStep.gpio_request, ProbeStep.gpio_to_irq,
                ProbeStep.devm_request_irq]
      gpio_reserved := true, irq_installed := false
      input_allocated := false, input_registered := false
      abs_x_max := none, abs_y_max := none
      logs := ["IRQ request failure."] }
  else if env.i2c_check_func_ok = false then
    { ret := some (- ENXIO)
      steps := [ProbeStep.gpio_request, ProbeStep.gpio_to_irq,
                ProbeStep.devm_request_irq, ProbeStep.i2c_check_functionality]
      gpio_reserved := true, irq_installed := true
      input_allocated := false, input_registered := false
      abs_x_max := none, abs_y_max := none
      logs := ["i2c_check_functionality error"] }
  else if env.input_alloc_ok = false then
    { ret := some (-ENOMEM)
      steps := [ProbeStep.gpio_request, ProbeStep.gpio_to_irq,
                ProbeStep.devm_request_irq, ProbeStep.i2c_check_functionality,
                ProbeStep.input_allocate]
      gpio_reserved := true, irq_installed := true
      input_allocated := false, input_registered := false
      abs_x_max := none, abs_y_max := none
      logs := [] }
  else if env.input_register_ret != 0 then
    { ret := some env.input_register_ret
      steps := [ProbeStep.gpio_request, ProbeStep.gpio_to_irq,
                ProbeStep.devm_request_irq, ProbeStep.i2c_check_functionality,
                ProbeStep.input_allocate, ProbeStep.input_setup,
                ProbeStep.input_register]
      gpio_reserved := true, irq_installed := true
      input_allocated := true, input_registered := false
      abs_x_max := some MTL2_MAX_X, abs_y_max := some MTL2_MAX_Y
      logs := ["Failed to register input device."] }
  else
    { ret := none
      steps := [ProbeStep.gpio_request, ProbeStep.gpio_to_irq,
                ProbeStep.devm_request_irq, ProbeStep.i2c_check_functionality,
                ProbeStep.input_allocate, ProbeStep.input_setup,
                ProbeStep.input_register]
      gpio_reserved := true, irq_installed := true
      input_allocated := true, input_registered := true
      abs_x_max := some MTL2_MAX_X, abs_y_max := some MTL2_MAX_Y
      logs := [] }

/-- Environment in which every platform call succeeds. -/
def allOkEnv : ProbeEnv :=
  { gpio_request_ok := true, gpio_to_irq_ret := 65
    devm_request_irq_ok := true, i2c_check_func_ok := true
    input_alloc_ok := true, input_register_ret := 0 }

/-- Environment in which `gpio_request` fails (`ResourceBusy`). -/
def gpioFailEnv : ProbeEnv := { allOkEnv with gpio_request_ok := false }

/-- Environment in which `gpio_to_irq` fails
(`InterruptMappingFailure`, returning -EINVAL). -/
def irqMapFailEnv : ProbeEnv := { allOkEnv with gpio_to_irq_ret := -22 }

/-- Environment in which `devm_request_irq` fails (`InstallError`). -/
def installFailEnv : ProbeEnv := { allOkEnv with devm_request_irq_ok := false }

/-- Environment in which `i2c_check_functionality` fails
(`UnsupportedBus`). -/
def unsupportedBusEnv : ProbeEnv := { allOkEnv with i2c_check_func_ok := false }

/-- Environment in which `devm_input_allocate_device` fails
(`AllocationFailure`). -/
def allocFailEnv : ProbeEnv := { allOkEnv with input_alloc_ok := false }

/-- Environment in which `input_register_device` fails with -EIO
(`RegistrationError`). -/
def registerFailEnv : ProbeEnv := { allOkEnv with input_register_ret := -5 }

/-- C5: when GPIO reservation fails, attach returns -1 immediately:
the only attempted step is `gpio_request`, no interrupt mapping,
handler installation, bus check, allocation or registration is
attempted, and no resource is held. -/
theorem C5_gpio_failure_aborts (env : ProbeEnv)
    (h : env.gpio_request_ok = false) :
    (mtl2_touchscreen_probe env).ret = some (-1)
    ∧ (mtl2_touchscreen_probe env).steps = [ProbeStep.gpio_request]
    ∧ ProbeStep.gpio_to_irq ∉ (mtl2_touchscreen_probe env).steps
    ∧ ProbeStep.devm_request_irq ∉ (mtl2_touchscreen_probe env).steps
    ∧ ProbeStep.i2c_check_functionality ∉ (mtl2_touchscreen_probe env).steps
    ∧ ProbeStep.input_allocate ∉ (mtl2_touchscreen_probe env).steps
    ∧ ProbeStep.input_register ∉ (mtl2_touchscreen_probe env).steps
    ∧ (mtl2_touchscreen_probe env).gpio_reserved = false
    ∧ (mtl2_touchscreen_probe env).irq_installed = false
    ∧ (mtl2_touchscreen_probe env).input_allocated = false
    ∧ (mtl2_touchscreen_probe env).input_registered = false := by
  simp [mtl2_touchscreen_probe, h]

/-- Witness for C5 in the concrete environment `gpioFailEnv`. -/
theorem C5_gpio_failure_aborts_witness :
    (mtl2_touchscreen_probe gpioFailEnv).ret = some (-1) :=
  (C5_gpio_failure_aborts gpioFailEnv rfl).1

/-- C6 counterexample: `ResourceBusy` (GPIO reservation failure) and
`InterruptMappingFailure` (pin-to-interrupt mapping failure) both make
attach return the same error result -1, so not all six failure kinds
produce distinct error results. -/
theorem C6_counterexample :
    (mtl2_touchscreen_probe gpioFailEnv).ret = some (-1)
    ∧ (mtl2_touchscreen_probe irqMapFailEnv).ret = some (-1)
    ∧ (mtl2_touchscreen_probe gpioFailEnv).ret
        = (mtl2_touchscreen_probe irqMapFailEnv).ret := by
  refine ⟨rfl, ?_, ?_⟩ <;> decide

/-- C6 amended: each of the six failure kinds is detected
synchronously and aborts attach immediately — the step trace stops at
the failing step — but the six return values are not all distinct:
`ResourceBusy` and `InterruptMappingFailure` both return -1, while the
remaining four return `-ENODEV`, `-ENXIO`, `-ENOMEM` and the
registration error code respectively. -/
theorem C6_failure_kinds_amended :
    ((mtl2_touchscreen_probe gpioFailEnv).ret = some (-1)
      ∧ (mtl2_touchscreen_probe gpioFailEnv).steps
          = [ProbeStep.gpio_request])
    ∧ ((mtl2_touchscreen_probe irqMapFailEnv).ret = some (-1)
      ∧ (mtl2_touchscreen_probe irqMapFailEnv).steps
          = [ProbeStep.gpio_request, ProbeStep.gpio_to_irq])
    ∧ ((mtl2_touchscreen_probe installFailEnv).ret = some (-ENODEV)
      ∧ (mtl2_touchscreen_probe installFailEnv).steps
          = [ProbeStep.gpio_request, ProbeStep.gpio_to_irq,
             ProbeStep.devm_request_irq])
    ∧ ((mtl2_touchscreen_probe unsupportedBusEnv).ret = some (- ENXIO)
      ∧ (mtl2_touchscreen_probe unsupportedBusEnv).steps
          = [ProbeStep.gpio_request, ProbeStep.gpio_to_irq,
             ProbeStep.devm_request_irq, ProbeStep.i2c_check_functionality])
    ∧ ((mtl2_touchscreen_probe allocFailEnv).ret = some (-ENOMEM)
      ∧ (mtl2_touchscreen_probe allocFailEnv).steps
          = [ProbeStep.gpio_request, ProbeStep.gpio_to_irq,
             ProbeStep.devm_request_irq, ProbeStep.i2c_check_functionality,
             ProbeStep.input_allocate])
    ∧ ((mtl2_touchscreen_probe registerFailEnv).ret = some (-5)
      ∧ (mtl2_touchscreen_probe registerFailEnv).steps
          = [ProbeStep.gpio_request, ProbeStep.gpio_to_irq,
             ProbeStep.devm_request_irq, ProbeStep.i2c_check_functionality,
             ProbeStep.input_allocate, ProbeStep.input_setup,
             ProbeStep.input_register]) := by
  decide

/-- C7: when the bus-functionality check fails after GPIO reservation,
interrupt mapping and handler installation succeeded, attach returns
`-ENXIO` while the GPIO pin stays reserved and the handler stays
installed — no rollback; likewise a registration failure leaves GPIO,
handler and allocated input device all held. -/
theorem C7_no_rollback (env : ProbeEnv)
    (h1 : env.gpio_request_ok = true) (h2 : 0 ≤ env.gpio_to_irq_ret)
    (h3 : env.devm_request_irq_ok = true) (h4 : env.i2c_check_func_ok = false) :
    ((mtl2_touchscreen_probe env).ret = some (- ENXIO)
      ∧ (mtl2_touchscreen_probe env).gpio_reserved = true
      ∧ (mtl2_touchscreen_probe env).irq_installed = true)
    ∧ ((mtl2_touchscreen_probe registerFailEnv).gpio_reserved = true
      ∧ (mtl2_touchscreen_probe registerFailEnv).irq_installed = true
      ∧ (mtl2_touchscreen_probe registerFailEnv).input_allocated = true) := by
  have h2n : ¬ env.gpio_to_irq_ret < 0 := Int.not_lt.mpr h2
  refine ⟨?_, ?_⟩
  · simp [mtl2_touchscreen_probe, h1, h2n, h3, h4]
  · decide

/-- Witness for C7 in the concrete environment `unsupportedBusEnv`. -/
theorem C7_no_rollback_witness :
    (mtl2_touchscreen_probe unsupportedBusEnv).gpio_reserved = true :=
  (C7_no_rollback unsupportedBusEnv rfl (by decide) rfl rfl).1.2.1

/-- A bus whose slot-1 X registers hold the raw bytes 0x0F / 0xFF,
decoding to 4095. -/
def busXMax : Nat → Int := fun r =>
  if r = TOUCH1_XH then 0x0F else if r = TOUCH1_XL then 0xFF else 0

/-- C10: the handler applies no clamping — the values it reports are
exactly the decoder outputs — even though attach configures the axes
with maxima 480 and 800; with raw X bytes 0x0F/0xFF the emitted
absolute-X value is 4095, exceeding the configured maximum 480. -/
theorem C10_no_clamping :
    (∀ bus : Nat → Int,
      (mtl2_touchscreen_irq bus).events
        = [Event.reportAbs Axis.absX
             (create_coord (u8_of_s32 (bus TOUCH1_XH)) (u8_of_s32 (bus TOUCH1_XL))),
           Event.reportAbs Axis.absY
             (create_coord (u8_of_s32 (bus TOUCH1_YH)) (u8_of_s32 (bus TOUCH1_YL))),
           Event.reportKey Key.btnTouch true, Event.sync])
    ∧ (mtl2_touchscreen_probe allOkEnv).abs_x_max = some MTL2_MAX_X
    ∧ (mtl2_touchscreen_probe allOkEnv).abs_y_max = some MTL2_MAX_Y
    ∧ (mtl2_touchscreen_irq busXMax).events.head?
        = some (Event.reportAbs Axis.absX 4095)
    ∧ MTL2_MAX_X < 4095 := by
  refine ⟨fun bus => rfl, ?_, ?_, ?_, ?_⟩ <;> decide

/-- The five calls of the detach path, in source order. -/
inductive ExitStep
  | disable_irq
  | gpio_free
  | input_unregister_device
  | i2c_unregister_device
  | i2c_del_driver
deriving DecidableEq

/-- Whether a detach call releases one of the four lifecycle resources
(interrupt line, GPIO pin, event-sink device, bus client binding);
`i2c_del_driver` only removes the driver table entry. -/
def isReleaseStep : ExitStep → Bool
  | ExitStep.i2c_del_driver => false
  | _ => true

/-- The detach path `mtl2_touchscreen_exit`, lines 219-228: five
unconditional statements.  Each called platform function returns
`void`, so an in-isolation failure of any step (the `fails` map) is
invisible to this function and cannot alter its control flow. -/
def mtl2_touchscreen_exit (fails : ExitStep → Bool) : List ExitStep :=
  [ExitStep.disable_irq, ExitStep.gpio_free,
   ExitStep.input_unregister_device, ExitStep.i2c_unregister_device,
   ExitStep.i2c_del_driver]

/-- C3: detach performs exactly the four release steps disable-irq,
gpio-free, input-unregister, i2c-unregister in exactly this order, and
performs all of them unconditionally — the executed sequence is the
same no matter which steps would fail in isolation. -/
theorem C3_exit_unconditional (fails : ExitStep → Bool) :
    ((mtl2_touchscreen_exit fails).filter isReleaseStep
      = [ExitStep.disable_irq, ExitStep.gpio_free,
         ExitStep.input_unregister_device, ExitStep.i2c_unregister_device])
    ∧ (mtl2_touchscreen_exit fails)
        = [ExitStep.disable_irq, ExitStep.gpio_free,
           ExitStep.input_unregister_device, ExitStep.i2c_unregister_device,
           ExitStep.i2c_del_driver]
    ∧ ∀ other : ExitStep → Bool,
        mtl2_touchscreen_exit fails = mtl2_touchscreen_exit other :=
  ⟨rfl, rfl, fun _ => rfl⟩

end MTL2
